import Mathlib

/-!
Shallow embedding of the plakar test integration (tracepanic/plakar-integration).

The repository has two connector implementations:
* `connector.go` — `testConnector`, registered for protocol "test" with
  hardcoded paths (`FILE`), whose Export copies record content to stderr;
* `importer/importer.go` — `TestImporter`, which parses `config["location"]`,
  normalizes it to an absolute cleaned path, and walks it with
  `filepath.WalkDir`.

Go strings are modelled as `List Char`; the filesystem is modelled as a
snapshot tree; channel traffic is modelled as event traces (sends followed by
an explicit close event), so that the channel-discipline obligations of the
protocol can be stated and proved.
-/

/-- Go strings, modelled as lists of characters. -/
abbrev GoStr := List Char

/-- Embed a Lean string literal as a Go string. -/
def str (s : String) : GoStr := s.data

/-- Go `error` values, modelled by their message. -/
abbrev GoErr := GoStr

/-- Model of Go `strings.HasPrefix(s, pre)`. -/
def goStartsWith (s pre : GoStr) : Bool := pre.isPrefixOf s

/-- Model of Go `strings.TrimPrefix(s, pre)`: drops `pre` when it is a
prefix of `s`, otherwise returns `s` unchanged. -/
def goTrimStart (s pre : GoStr) : GoStr :=
  if pre.isPrefixOf s then s.drop pre.length else s

/-- Split a character list on a separator character; used with `'/'` by the
`path/filepath` models. `splitOnSep c s` always returns at least one
(possibly empty) segment. -/
def splitOnSep (c : Char) : GoStr → List GoStr
  | [] => [[]]
  | x :: xs =>
    if x = c then [] :: splitOnSep c xs
    else
      match splitOnSep c xs with
      | [] => [[x]]
      | h :: t => (x :: h) :: t

/-- Segment processing of Go `path/filepath.Clean` (Unix separators): empty
and `"."` segments are dropped; `".."` pops the previous real segment, is
dropped at the root of a rooted path, and is kept at the front of a relative
path when there is nothing left to pop. `acc` is the reversed stack of output
segments. -/
def cleanSegs (rooted : Bool) : List GoStr → List GoStr → List GoStr
  | acc, [] => acc.reverse
  | acc, seg :: rest =>
    if seg = [] ∨ seg = str "." then cleanSegs rooted acc rest
    else if seg = str ".." then
      match acc with
      | [] =>
        if rooted then cleanSegs rooted [] rest
        else cleanSegs rooted [str ".."] rest
      | top :: acc2 =>
        if top = str ".." then cleanSegs rooted (str ".." :: top :: acc2) rest
        else cleanSegs rooted acc2 rest
    else cleanSegs rooted (seg :: acc) rest

/-- Join path segments with `'/'`. -/
def joinSegs : List GoStr → GoStr
  | [] => []
  | [s] => s
  | s :: rest => s ++ '/' :: joinSegs rest

/-- Model of Go `path/filepath.Clean` for Unix separators: the shortest
lexically-equivalent path (collapses repeated separators, drops `"."`,
resolves `".."` lexically, drops trailing separators; `""` cleans to `"."`,
rooted paths stay rooted). -/
def filepathClean (path : GoStr) : GoStr :=
  if path = [] then str "."
  else if goStartsWith path (str "/") then
    '/' :: joinSegs (cleanSegs true [] (splitOnSep '/' path))
  else
    let out := joinSegs (cleanSegs false [] (splitOnSep '/' path))
    if out = [] then str "." else out

/-- Drop trailing `'/'` characters (helper for `filepathBase`). -/
def dropTrailingSep (p : GoStr) : GoStr :=
  (p.reverse.dropWhile (fun c => c = '/')).reverse

/-- The characters after the last `'/'` (helper for `filepathBase`). -/
def afterLastSep (p : GoStr) : GoStr :=
  (p.reverse.takeWhile (fun c => c ≠ '/')).reverse

/-- Model of Go `path/filepath.Base`: the last element of the path after
dropping trailing separators; `""` gives `"."`, an all-separator path gives
`"/"`. -/
def filepathBase (path : GoStr) : GoStr :=
  if path = [] then str "."
  else
    let p := dropTrailingSep path
    if p = [] then str "/"
    else afterLastSep p

/-- Model of Go `path/filepath.Join` on two elements: non-empty elements are
joined with `'/'` and the result is Cleaned; all-empty input gives `""`. -/
def filepathJoin (a b : GoStr) : GoStr :=
  if a = [] then (if b = [] then [] else filepathClean b)
  else if b = [] then filepathClean a
  else filepathClean (a ++ '/' :: b)

/-- The fields of `objects.FileInfo` set by the connectors (`Lname`,
`Lsize`, `Lmode`, `LmodTime`, `Ldev`). Mode is the `fs.FileMode` bits,
modification time is in epoch nanoseconds. -/
structure FileInfo where
  lname : GoStr
  lsize : Int
  lmode : Nat
  lmodTime : Int
  ldev : Nat
  deriving Repr, DecidableEq

/-- A Record as built by `connectors.NewRecord(path, "", fi, nil, opener)`:
the pathname, the (empty) target, and the file metadata. Every record built
by the importers also carries a deferred content accessor that opens
`pathname` (`os.Open(path)`); the closure captures only the path, so it is
determined by `pathname` and is not repeated here. -/
structure Rec where
  pathname : GoStr
  target : GoStr
  fi : FileInfo
  deriving Repr, DecidableEq

/-- One event observed on a typed channel: a value send, or the close of the
channel. A run of a producer is modelled by the list of events it performs on
its outbound channel, in order. -/
inductive ChanEv (α : Type) where
  | send (a : α) : ChanEv α
  | close : ChanEv α
  deriving Repr, DecidableEq

mutual
/-- A node of the filesystem snapshot an Import run traverses. A `file`
carries the result of `DirEntry.Info()` (`statOk = false` models a per-entry
stat failure) and its metadata; a `dir` carries whether `os.ReadDir`
succeeds on it (`readable = false` models a walk-callback error for that
directory) and its entries. -/
inductive FsNode where
  | file (statOk : Bool) (size : Int) (mode : Nat) (modTime : Int) : FsNode
  | dir (readable : Bool) (entries : FsEntries) : FsNode

/-- Named directory entries, listed in the lexical order `os.ReadDir`
yields them (Go sorts entries by filename). -/
inductive FsEntries where
  | nil : FsEntries
  | cons (name : GoStr) (node : FsNode) (rest : FsEntries) : FsEntries
end

mutual
/-- The records emitted by `TestImporter.Import`'s `filepath.WalkDir`
callback while visiting the node at `path`: walk-callback errors
(unreadable directory) are skipped, directories are skipped, entries whose
`d.Info()` fails are skipped, and each remaining file yields one record with
`Lname = filepath.Base(path)`, the stat metadata, and `Ldev = 1`
(importer/importer.go lines 73-100). -/
def walkVisit (path : GoStr) : FsNode → List Rec
  | .file statOk size mode modTime =>
    if statOk then [⟨path, [], ⟨filepathBase path, size, mode, modTime, 1⟩⟩]
    else []
  | .dir readable entries =>
    if readable then walkEntries path entries else []

/-- Walk the entries of the directory `dir` in order; `filepath.WalkDir`
visits `filepath.Join(dir, name)` for each. -/
def walkEntries (dir : GoStr) : FsEntries → List Rec
  | .nil => []
  | .cons name node rest =>
    walkVisit (filepathJoin dir name) node ++ walkEntries dir rest
end

/-- `importer.TestImporter`: holds the resolved scan directory. -/
structure TestImporter where
  scanDir : GoStr
  deriving Repr, DecidableEq

/-- The protocol-prefix strip step of `NewTestImporter`
(importer/importer.go lines 32-36): if the location starts with
`name + ":/"`, drop the `name + ":"` prefix. -/
def stripProto (name location : GoStr) : GoStr :=
  if goStartsWith location (name ++ str ":/") then
    goTrimStart location (name ++ str ":")
  else location

/-- The absolute-path coercion step of `NewTestImporter`
(importer/importer.go lines 38-41): prepend `"/"` unless the location
already starts with it. -/
def ensureAbs (location : GoStr) : GoStr :=
  if goStartsWith location (str "/") then location
  else str "/" ++ location

/-- `NewTestImporter` (importer/importer.go lines 26-54): require
`config["location"]`, strip the protocol prefix, force an absolute path,
`filepath.Clean` it, and require `os.Stat` of the result to succeed
(`statOk` is the stat oracle for the current filesystem state). -/
def NewTestImporter (name : GoStr) (config : GoStr → Option GoStr)
    (statOk : GoStr → Bool) : Except GoErr TestImporter :=
  match config (str "location") with
  | none => .error (str "missing location")
  | some location =>
    let cleanPath := filepathClean (ensureAbs (stripProto name location))
    if statOk cleanPath then .ok ⟨cleanPath⟩
    else .error (str "cannot access location")

/-- `TestImporter.Root` (importer/importer.go line 56). -/
def TestImporter.Root (f : TestImporter) : GoStr := f.scanDir

/-- `TestImporter.Ping` (importer/importer.go lines 61-64): performs
exactly one `os.Stat(f.scanDir)` and returns its error. `statErr` maps a
path to the error of statting it (`none` = success). -/
def TestImporter.Ping (f : TestImporter) (statErr : GoStr → Option GoErr) :
    Option GoErr :=
  statErr f.scanDir

/-- `TestImporter.Import` (importer/importer.go lines 66-101) over one
filesystem snapshot. `rootStat` is the result of statting `f.scanDir` in
that snapshot: an error, or the tree rooted there (the Ping stat and
WalkDir's root stat see the same snapshot). `defer close(records)` closes
the outbound channel on every return path; on a root stat failure the stat
error is returned, otherwise WalkDir runs (the callback never returns a
non-nil error, so WalkDir returns nil). The result is the trace of events on
the `records` channel, and the returned error. -/
def TestImporter.Import (f : TestImporter)
    (rootStat : Except GoErr FsNode) : List (ChanEv Rec) × Option GoErr :=
  match rootStat with
  | .error e => ([ChanEv.close], some e)
  | .ok root =>
    ((walkVisit f.scanDir root).map ChanEv.send ++ [ChanEv.close], none)

/-- `TestImporter.Close` (importer/importer.go lines 103-105): returns nil
and touches no state. -/
def TestImporter.Close (f : TestImporter) : TestImporter × Option GoErr :=
  (f, none)

/-- `testConnector` (connector.go line 17): an empty struct, no state. -/
structure TestConnector where
  deriving Repr, DecidableEq

/-- The hardcoded source file of connector.go (line 19). -/
def FILE : GoStr := str "/home/tracepanic/Documents/notes.md"

/-- `connector.go` `NewImporter` (lines 26-28): ignores context, options and
configuration, and always returns a connector with a nil error. -/
def NewImporter (config : GoStr → Option GoStr) : Except GoErr TestConnector :=
  .ok ⟨⟩

/-- `connector.go` `NewExporter` (lines 30-32): ignores context, options and
configuration, and always returns a connector with a nil error. -/
def NewExporter (config : GoStr → Option GoStr) : Except GoErr TestConnector :=
  .ok ⟨⟩

/-- `testConnector.Root` (connector.go line 34). -/
def TestConnector.Root (_ : TestConnector) : GoStr :=
  str "/home/tracepanic/Documents"

/-- `testConnector.Ping` (connector.go lines 42-44): the body is
`return nil`; it performs no stat, so the filesystem stat oracle is ignored.
The oracle is a parameter so that the dependence (absence of it) on the
filesystem state can be stated. -/
def TestConnector.Ping (_ : TestConnector)
    (statErr : GoStr → Option GoErr) : Option GoErr :=
  none

/-- The result of `os.Stat(FILE)` when it succeeds: the metadata used to
build the record in `testConnector.Import`. -/
structure StatInfo where
  size : Int
  mode : Nat
  modTime : Int
  deriving Repr, DecidableEq

/-- `testConnector.Import` (connector.go lines 46-67): `defer
close(records)`; stat `FILE`, returning the stat error if it fails;
otherwise send exactly one record for `FILE` (with
`Lname = filepath.Base(FILE)` and `Ldev = 1`) and return nil. The result is
the trace on the `records` channel and the returned error. -/
def TestConnector.Import (_ : TestConnector)
    (fileStat : Except GoErr StatInfo) : List (ChanEv Rec) × Option GoErr :=
  match fileStat with
  | .error e => ([ChanEv.close], some e)
  | .ok info =>
    ([ChanEv.send ⟨FILE, [],
        ⟨filepathBase FILE, info.size, info.mode, info.modTime, 1⟩⟩,
      ChanEv.close], none)

/-- The behaviour of a received Record's content stream (`record.Reader`):
the bytes `io.Copy` obtains from it, followed by the read error that ends
the copy (`none` = the stream ends normally at EOF). -/
structure RecReader where
  bytes : List Nat
  readErr : Option GoErr
  deriving Repr, DecidableEq

/-- A Record as received by `testConnector.Export`: its `Pathname` and its
`Reader` (`none` models `record.Reader == nil`). -/
structure ExpRec where
  pathname : GoStr
  reader : Option RecReader
  deriving Repr, DecidableEq

/-- A `connectors.Result`: `record.Ok()` or `record.Error(err)`, tagged
with the originating record's pathname. -/
inductive ResultVal where
  | ok (pathname : GoStr) : ResultVal
  | fail (pathname : GoStr) (e : GoErr) : ResultVal
  deriving Repr, DecidableEq

/-- One write performed on stderr by `testConnector.Export`: the
`"--- %s ---\n"` header, the bytes `io.Copy` transfers, or the trailing
`Fprintln` newline. -/
inductive StderrEv where
  | header (pathname : GoStr) : StderrEv
  | content (bytes : List Nat) : StderrEv
  | newline : StderrEv
  deriving Repr, DecidableEq

/-- The body of `testConnector.Export`'s loop for one record (connector.go
lines 72-84): print the header to stderr; if the record has a Reader, copy
it to stderr — on a copy error send `record.Error(err)` and continue with
the next record, otherwise print a newline; finally send `record.Ok()`.
Returns the one `results`-channel event and the stderr writes for this
record. -/
def exportStep (r : ExpRec) : ChanEv ResultVal × List StderrEv :=
  match r.reader with
  | none =>
    (ChanEv.send (ResultVal.ok r.pathname), [StderrEv.header r.pathname])
  | some rd =>
    match rd.readErr with
    | some e =>
      (ChanEv.send (ResultVal.fail r.pathname e),
       [StderrEv.header r.pathname, StderrEv.content rd.bytes])
    | none =>
      (ChanEv.send (ResultVal.ok r.pathname),
       [StderrEv.header r.pathname, StderrEv.content rd.bytes,
        StderrEv.newline])

/-- The `for record := range records` loop of `testConnector.Export`, over
the full sequence of records the host sends before closing the inbound
channel. Returns the `results`-channel sends and the stderr writes, in
order. -/
def exportLoop : List ExpRec → List (ChanEv ResultVal) × List StderrEv
  | [] => ([], [])
  | r :: rest =>
    ((exportStep r).1 :: (exportLoop rest).1,
     (exportStep r).2 ++ (exportLoop rest).2)

/-- The destination filesystem, path ↦ file contents, threaded through
Export so that its (absence of) filesystem writes is observable. -/
abbrev DestFs := List (GoStr × List Nat)

/-- `testConnector.Export` (connector.go lines 69-87): drain the inbound
`records` channel, processing each record with `exportStep`; `defer
close(results)` closes the outbound channel after the loop on every return
path; the body performs no filesystem operation, so the destination
filesystem state passes through unchanged; the return value is nil. The
result is (results-channel trace, stderr writes, destination filesystem,
returned error). -/
def TestConnector.Export (_ : TestConnector) (recs : List ExpRec)
    (fs : DestFs) :
    List (ChanEv ResultVal) × List StderrEv × DestFs × Option GoErr :=
  ((exportLoop recs).1 ++ [ChanEv.close], (exportLoop recs).2, fs, none)

/-- `testConnector.Close` (connector.go lines 89-91): returns nil and
touches no state. -/
def TestConnector.Close (c : TestConnector) : TestConnector × Option GoErr :=
  (c, none)

/-- The single Result that Export produces for one received record: success
unless the record has a Reader whose copy fails, in which case a failure
Result carrying that error. -/
def resultOf (r : ExpRec) : ResultVal :=
  match r.reader with
  | none => ResultVal.ok r.pathname
  | some rd =>
    match rd.readErr with
    | some e => ResultVal.fail r.pathname e
    | none => ResultVal.ok r.pathname

mutual
/-- Spec-side reading of the Import contract: one record per non-directory
entry of the tree (with `filepath.Base` name, the entry's size, mode and
modification time, and device 1), and no record for any directory. Written
from the spec's words, to be compared with `walkVisit`. -/
def specFiles (path : GoStr) : FsNode → List Rec
  | .file _ size mode modTime =>
    [⟨path, [], ⟨filepathBase path, size, mode, modTime, 1⟩⟩]
  | .dir _ entries => specFilesEntries path entries

/-- Spec-side traversal of a directory's entries, in order. -/
def specFilesEntries (dir : GoStr) : FsEntries → List Rec
  | .nil => []
  | .cons name node rest =>
    specFiles (filepathJoin dir name) node ++ specFilesEntries dir rest
end

mutual
/-- Every node of the tree is accessible: every file's stat succeeds and
every directory is readable (the "readable root" premise of the traversal
scenario). -/
def allAccessible : FsNode → Bool
  | .file statOk _ _ _ => statOk
  | .dir readable entries => readable && allAccessibleEntries entries

/-- `allAccessible` over a list of entries. -/
def allAccessibleEntries : FsEntries → Bool
  | .nil => true
  | .cons _ node rest => allAccessible node && allAccessibleEntries rest
end

/-- A configuration map with no keys at all (in particular no
`"location"`). -/
def emptyConfig : GoStr → Option GoStr := fun _ => none

/-- A configuration whose `"location"` is exactly the protocol prefix
`"test://"` with nothing after it. -/
def locOnlyProto : GoStr → Option GoStr :=
  fun k => if k = str "location" then some (str "test://") else none

/-- A configuration whose `"location"` is the bare opaque string
`"foo"`. -/
def fooConfig : GoStr → Option GoStr :=
  fun k => if k = str "location" then some (str "foo") else none

/-- A stat oracle for which every path exists. -/
def statAlwaysOk : GoStr → Bool := fun _ => true

/-- A stat-error oracle for which statting any path fails. -/
def statAllFail : GoStr → Option GoErr :=
  fun _ => some (str "no such file or directory")

/-- The scenario tree: a root directory containing `a.txt` (5 bytes) and a
subdirectory `b/` containing `c.txt` (3 bytes); everything readable, mode
0644, epoch modification time. -/
def scenarioTree : FsNode :=
  .dir true
    (.cons (str "a.txt") (.file true 5 420 0)
      (.cons (str "b")
        (.dir true (.cons (str "c.txt") (.file true 3 420 0) .nil))
        .nil))

/-- The Export scenario record: relative path `x/y.txt` with a 10-byte
content stream that reads to EOF without error. -/
def scenarioExpRec : ExpRec :=
  ⟨str "x/y.txt", some ⟨[1, 2, 3, 4, 5, 6, 7, 8, 9, 10], none⟩⟩

example : filepathClean (str "//") = str "/" := by decide

example : filepathClean (str "///tmp/src") = str "/tmp/src" := by decide

example : filepathClean (str "/a/../b") = str "/b" := by decide

example : filepathClean (str "a/../../b") = str "../b" := by decide

example : filepathBase FILE = str "notes.md" := by decide

example : filepathJoin (str "/tmp/src") (str "a.txt") = str "/tmp/src/a.txt" := by decide

example : goTrimStart (str "test:///tmp/src") (str "test:") = str "///tmp/src" := by decide

lemma exportStep_fst (r : ExpRec) :
    (exportStep r).1 = ChanEv.send (resultOf r) := by
  cases hr : r.reader with
  | none => simp [exportStep, resultOf, hr]
  | some rd => cases he : rd.readErr <;> simp [exportStep, resultOf, hr, he]

lemma exportLoop_fst (recs : List ExpRec) :
    (exportLoop recs).1 = recs.map (fun r => ChanEv.send (resultOf r)) := by
  induction recs with
  | nil => rfl
  | cons r rest ih => simp [exportLoop, exportStep_fst, ih]

lemma startsWith_slash_cons (s : GoStr) :
    goStartsWith ('/' :: s) (str "/") = true := by
  show List.isPrefixOf ['/'] ('/' :: s) = true
  simp [List.isPrefixOf]

lemma startsWith_slash_shape (s : GoStr)
    (h : goStartsWith s (str "/") = true) : ∃ t, s = '/' :: t := by
  cases s with
  | nil => simp [goStartsWith, str, List.isPrefixOf] at h
  | cons a t =>
    have h2 : List.isPrefixOf ['/'] (a :: t) = true := h
    simp [List.isPrefixOf] at h2
    exact ⟨t, by rw [h2]⟩

lemma ensureAbs_startsWith (s : GoStr) :
    goStartsWith (ensureAbs s) (str "/") = true := by
  unfold ensureAbs
  by_cases h : goStartsWith s (str "/") = true
  · simp [h]
  · simp only [h, if_neg, Bool.not_eq_true, ite_false]
    have : str "/" ++ s = '/' :: s := rfl
    rw [this]
    exact startsWith_slash_cons s

lemma filepathClean_rooted (s : GoStr)
    (h : goStartsWith s (str "/") = true) :
    ∃ t, filepathClean s = '/' :: t := by
  obtain ⟨t, rfl⟩ := startsWith_slash_shape s h
  refine ⟨joinSegs (cleanSegs true [] (splitOnSep '/' ('/' :: t))), ?_⟩
  simp [filepathClean, h]

/-- C1: on every return path of an Import run — a successful enumeration,
a failed stat of the source root (`TestImporter`), or a failed stat of
`FILE` (`testConnector`) — the trace on the outbound Record channel is a
block of sends followed by exactly one close event: the channel is closed
exactly once, after the last Record send. -/
theorem record_channel_closed_once_after_sends :
    ∀ (f : TestImporter) (rootStat : Except GoErr FsNode)
      (c : TestConnector) (fileStat : Except GoErr StatInfo),
    (∃ sent : List Rec,
      (TestImporter.Import f rootStat).1
        = sent.map ChanEv.send ++ [ChanEv.close]) ∧
    (∃ sent : List Rec,
      (TestConnector.Import c fileStat).1
        = sent.map ChanEv.send ++ [ChanEv.close]) := by
  intro f rootStat c fileStat
  constructor
  · cases rootStat with
    | error e => exact ⟨[], rfl⟩
    | ok root => exact ⟨walkVisit f.scanDir root, rfl⟩
  · cases fileStat with
    | error e => exact ⟨[], rfl⟩
    | ok info =>
      exact ⟨[⟨FILE, [],
        ⟨filepathBase FILE, info.size, info.mode, info.modTime, 1⟩⟩], rfl⟩

/-- C2: for every Export run, every received Record produces exactly one
Result — `record.Ok()` on success, `record.Error(err)` carrying the copy
error on a per-item failure — in order, with no failure stopping the
processing of later Records, and the Result channel is closed exactly once,
after the Result of the last Record of the exhausted inbound channel. -/
theorem export_one_result_per_record_then_close :
    ∀ (c : TestConnector) (recs : List ExpRec) (fs : DestFs),
    (TestConnector.Export c recs fs).1
      = recs.map (fun r => ChanEv.send (resultOf r)) ++ [ChanEv.close] := by
  intro c recs fs
  simp [TestConnector.Export, exportLoop_fst]

/-- C3 counterexample: Export of the one Record with relative path
`x/y.txt` and a 10-byte stream, starting from an empty destination
filesystem, leaves the destination filesystem empty — in particular no file
`/tmp/dst/x/y.txt` exists — while emitting one success Result; the Record's
content is not copied to any destination file. -/
theorem export_no_destination_file_counterexample :
    (TestConnector.Export ⟨⟩ [scenarioExpRec] []).2.2.1 = ([] : DestFs) ∧
    ((TestConnector.Export ⟨⟩ [scenarioExpRec] []).2.2.1.contains
      (str "/tmp/dst/x/y.txt", [1, 2, 3, 4, 5, 6, 7, 8, 9, 10])) = false ∧
    (TestConnector.Export ⟨⟩ [scenarioExpRec] []).1
      = [ChanEv.send (ResultVal.ok (str "x/y.txt")), ChanEv.close] := by
  refine ⟨rfl, rfl, rfl⟩

/-- C3 amended: Export never touches the destination filesystem (it is a
stderr-logging exporter, connector.go lines 69-87): for every run the
destination filesystem is unchanged, and for the Record with relative path
`x/y.txt` and a 10-byte content stream it writes the header, the 10 bytes
and a newline to stderr and emits exactly one success Result before closing
the Result channel. -/
theorem export_copies_to_stderr_not_to_files :
    ∀ (c : TestConnector) (recs : List ExpRec) (fs : DestFs),
    (TestConnector.Export c recs fs).2.2.1 = fs ∧
    (TestConnector.Export c [scenarioExpRec] fs).2.1
      = [StderrEv.header (str "x/y.txt"),
         StderrEv.content [1, 2, 3, 4, 5, 6, 7, 8, 9, 10],
         StderrEv.newline] ∧
    (TestConnector.Export c [scenarioExpRec] fs).1
      = [ChanEv.send (ResultVal.ok (str "x/y.txt")), ChanEv.close] := by
  intro c recs fs
  exact ⟨rfl, rfl, rfl⟩

/-- C4 counterexample: the registered constructors of connector.go accept a
configuration with no `"location"` key: `NewImporter` and `NewExporter`
both return a Connector instance with a nil error. -/
theorem constructors_ignore_missing_location_counterexample :
    emptyConfig (str "location") = none ∧
    NewImporter emptyConfig = Except.ok ⟨⟩ ∧
    NewExporter emptyConfig = Except.ok ⟨⟩ := by
  exact ⟨rfl, rfl, rfl⟩

/-- C4 amended: only `NewTestImporter` (importer/importer.go) rejects a
configuration without a `"location"` key, with the "missing location"
construction error; the connector.go constructors `NewImporter` and
`NewExporter` ignore the configuration entirely and always return a
Connector with a nil error. -/
theorem missing_location_only_in_test_importer :
    ∀ (name : GoStr) (config cfg2 : GoStr → Option GoStr)
      (statOk : GoStr → Bool),
    config (str "location") = none →
    NewTestImporter name config statOk
        = Except.error (str "missing location") ∧
    NewImporter cfg2 = Except.ok ⟨⟩ ∧
    NewExporter cfg2 = Except.ok ⟨⟩ := by
  intro name config cfg2 statOk h
  refine ⟨?_, rfl, rfl⟩
  unfold NewTestImporter
  rw [h]

/-- C4 witness: the amended statement at the concrete empty
configuration. -/
theorem missing_location_only_in_test_importer_witness :
    NewTestImporter (str "test") emptyConfig statAlwaysOk
        = Except.error (str "missing location") ∧
    NewImporter emptyConfig = Except.ok ⟨⟩ ∧
    NewExporter emptyConfig = Except.ok ⟨⟩ :=
  missing_location_only_in_test_importer (str "test") emptyConfig emptyConfig
    statAlwaysOk rfl

/-- C5 counterexample: with `"location" = "test://"` (the protocol prefix
with nothing after it) and a filesystem in which every path exists,
`NewTestImporter` succeeds with scan directory `"/"` instead of returning a
fatal construction error: the code strips only `"test:"`, leaving `"//"`,
which `filepath.Clean` turns into `"/"`. -/
theorem proto_only_location_counterexample :
    NewTestImporter (str "test") locOnlyProto statAlwaysOk
      = Except.ok ⟨str "/"⟩ := rfl

/-- C5 amended: for a configuration whose `"location"` is exactly
`"test://"`, the constructor strips only the `"test:"` prefix, leaving
`"//"`, cleans it to `"/"`, and — whenever `"/"` is statable — returns a
Connector whose scan directory is `"/"`; an empty remainder after the
protocol prefix is not rejected. -/
theorem proto_only_location_succeeds :
    ∀ statOk : GoStr → Bool, statOk (str "/") = true →
    NewTestImporter (str "test") locOnlyProto statOk
      = Except.ok ⟨str "/"⟩ := by
  intro statOk h
  have hred : NewTestImporter (str "test") locOnlyProto statOk
      = if statOk (str "/") = true then Except.ok ⟨str "/"⟩
        else Except.error (str "cannot access location") := rfl
  rw [hred, if_pos h]

/-- C5 witness: the amended statement at the all-paths-exist stat
oracle. -/
theorem proto_only_location_succeeds_witness :
    statAlwaysOk (str "/") = true ∧
    NewTestImporter (str "test") locOnlyProto statAlwaysOk
      = Except.ok ⟨str "/"⟩ :=
  ⟨rfl, proto_only_location_succeeds statAlwaysOk rfl⟩

mutual
lemma walkVisit_eq_specFiles : ∀ (p : GoStr) (t : FsNode),
    allAccessible t = true → walkVisit p t = specFiles p t
  | p, .file statOk size mode modTime, h => by
    have hs : statOk = true := by simpa [allAccessible] using h
    simp [walkVisit, specFiles, hs]
  | p, .dir readable entries, h => by
    have h2 : readable = true ∧ allAccessibleEntries entries = true := by
      simpa [allAccessible, Bool.and_eq_true] using h
    simp [walkVisit, specFiles, h2.1,
      walkEntries_eq_specFilesEntries p entries h2.2]

lemma walkEntries_eq_specFilesEntries : ∀ (d : GoStr) (es : FsEntries),
    allAccessibleEntries es = true → walkEntries d es = specFilesEntries d es
  | d, .nil, _ => rfl
  | d, .cons name node rest, h => by
    have h2 : allAccessible node = true ∧ allAccessibleEntries rest = true := by
      simpa [allAccessibleEntries, Bool.and_eq_true] using h
    simp [walkEntries, specFilesEntries,
      walkVisit_eq_specFiles (filepathJoin d name) node h2.1,
      walkEntries_eq_specFilesEntries d rest h2.2]
end

/-- C6: an Import run over a fully readable root emits exactly one Record
per non-directory entry of the traversal (with that entry's path and
metadata) and no Record for any directory entry, and then closes the Record
channel: the channel trace is the spec-side list of file records, as sends,
followed by the close. -/
theorem traversal_emits_records_for_files_only :
    ∀ (f : TestImporter) (root : FsNode), allAccessible root = true →
    (TestImporter.Import f (Except.ok root)).1
      = (specFiles f.scanDir root).map ChanEv.send ++ [ChanEv.close] := by
  intro f root h
  simp [TestImporter.Import, walkVisit_eq_specFiles f.scanDir root h]

/-- C6 witness: the `/tmp/src` scenario — `a.txt` (5 bytes) and `b/c.txt`
(3 bytes) — yields exactly the two file Records (sizes 5 and 3), nothing
for the directory `b`, then the close. -/
theorem traversal_emits_records_for_files_only_witness :
    allAccessible scenarioTree = true ∧
    (TestImporter.Import ⟨str "/tmp/src"⟩ (Except.ok scenarioTree)).1
      = (specFiles (str "/tmp/src") scenarioTree).map ChanEv.send
          ++ [ChanEv.close] ∧
    (TestImporter.Import ⟨str "/tmp/src"⟩ (Except.ok scenarioTree)).1
      = [ChanEv.send ⟨str "/tmp/src/a.txt", [], ⟨str "a.txt", 5, 420, 0, 1⟩⟩,
         ChanEv.send ⟨str "/tmp/src/b/c.txt", [],
           ⟨str "c.txt", 3, 420, 0, 1⟩⟩,
         ChanEv.close] :=
  ⟨by decide,
   traversal_emits_records_for_files_only ⟨str "/tmp/src"⟩ scenarioTree
     (by decide),
   by decide⟩

/-- C7: an Import run returns a non-nil terminal error exactly when the
stat of the traversal root (of `FILE`, for `testConnector`) fails; every
per-entry failure — a walk-callback error from an unreadable directory, or
a failed per-entry stat — is skipped, contributes no Record, and never
makes Import return an error. -/
theorem terminal_error_iff_root_unreachable :
    ∀ (f : TestImporter) (rootStat : Except GoErr FsNode)
      (c : TestConnector) (fileStat : Except GoErr StatInfo),
    ((TestImporter.Import f rootStat).2 = none
      ↔ ∃ t, rootStat = Except.ok t) ∧
    ((TestConnector.Import c fileStat).2 = none
      ↔ ∃ i, fileStat = Except.ok i) ∧
    (∀ (p : GoStr) (size : Int) (mode : Nat) (modTime : Int),
      walkVisit p (FsNode.file false size mode modTime) = []) ∧
    (∀ (p : GoStr) (es : FsEntries),
      walkVisit p (FsNode.dir false es) = []) := by
  intro f rootStat c fileStat
  refine ⟨?_, ?_, ?_, ?_⟩
  · cases rootStat with
    | error e => simp [TestImporter.Import]
    | ok root => simp [TestImporter.Import]
  · cases fileStat with
    | error e => simp [TestConnector.Import]
    | ok info => simp [TestConnector.Import]
  · intro p size mode modTime
    simp [walkVisit]
  · intro p es
    simp [walkVisit]

/-- C8 counterexample: in a filesystem state where statting every path
fails — in particular the configured root `/home/tracepanic/Documents` and
`FILE` are unreachable — `testConnector.Ping` still returns success, so
Ping success does not coincide with reachability of the configured
source. -/
theorem ping_ignores_reachability_counterexample :
    TestConnector.Ping ⟨⟩ statAllFail = none ∧
    statAllFail (TestConnector.Root ⟨⟩)
      = some (str "no such file or directory") ∧
    statAllFail FILE = some (str "no such file or directory") :=
  ⟨rfl, rfl, rfl⟩

/-- C8 amended: `TestImporter.Ping` returns exactly the result of the
single metadata stat of its scan directory (success precisely when it is
reachable, with no other side effect), while `testConnector.Ping` returns
success unconditionally, performing no stat at all. -/
theorem ping_is_stat_of_root_for_test_importer :
    ∀ (f : TestImporter) (statErr : GoStr → Option GoErr)
      (c : TestConnector),
    TestImporter.Ping f statErr = statErr f.scanDir ∧
    TestConnector.Ping c statErr = none := by
  intro f statErr c
  exact ⟨rfl, rfl⟩

/-- C9: Close is idempotent on both connector types: calling it twice on
the same instance returns a nil error both times and leaves the instance
unchanged — and since neither Close acquires or inspects any resource,
this holds when no resources were ever acquired. -/
theorem close_twice_returns_no_error :
    ∀ (f : TestImporter) (c : TestConnector),
    (TestImporter.Close f).2 = none ∧
    (TestImporter.Close (TestImporter.Close f).1).2 = none ∧
    (TestImporter.Close (TestImporter.Close f).1).1 = f ∧
    (TestConnector.Close c).2 = none ∧
    (TestConnector.Close (TestConnector.Close c).1).2 = none := by
  intro f c
  exact ⟨rfl, rfl, rfl, rfl, rfl⟩

lemma newTestImporter_eq_of_none (name : GoStr)
    (config : GoStr → Option GoStr) (statOk : GoStr → Bool)
    (hc : config (str "location") = none) :
    NewTestImporter name config statOk
      = Except.error (str "missing location") := by
  unfold NewTestImporter
  rw [hc]

lemma newTestImporter_eq_of_some (name location : GoStr)
    (config : GoStr → Option GoStr) (statOk : GoStr → Bool)
    (hc : config (str "location") = some location) :
    NewTestImporter name config statOk
      = if statOk (filepathClean (ensureAbs (stripProto name location))) = true
        then Except.ok ⟨filepathClean (ensureAbs (stripProto name location))⟩
        else Except.error (str "cannot access location") := by
  unfold NewTestImporter
  rw [hc]

/-- C10: whenever `NewTestImporter` succeeds, the stored scan directory is
`filepath.Clean` applied to the location after protocol stripping and
absolute-path coercion, and it always begins with `"/"`: a relative or
opaque location is silently coerced to an absolute path rather than
rejected or resolved against the working directory. -/
theorem accepted_root_is_absolute_cleaned :
    ∀ (name : GoStr) (config : GoStr → Option GoStr)
      (statOk : GoStr → Bool) (f : TestImporter),
    NewTestImporter name config statOk = Except.ok f →
    (∃ location, config (str "location") = some location ∧
      f.scanDir = filepathClean (ensureAbs (stripProto name location))) ∧
    goStartsWith f.scanDir (str "/") = true := by
  intro name config statOk f h
  cases hc : config (str "location") with
  | none =>
    rw [newTestImporter_eq_of_none name config statOk hc] at h
    exact absurd h (by simp)
  | some location =>
    rw [newTestImporter_eq_of_some name location config statOk hc] at h
    by_cases hs : statOk (filepathClean (ensureAbs (stripProto name location))) = true
    · rw [if_pos hs] at h
      injection h with h2
      subst h2
      refine ⟨⟨location, rfl, rfl⟩, ?_⟩
      show goStartsWith (filepathClean (ensureAbs (stripProto name location)))
        (str "/") = true
      obtain ⟨t, ht⟩ :=
        filepathClean_rooted (ensureAbs (stripProto name location))
          (ensureAbs_startsWith (stripProto name location))
      rw [ht]
      exact startsWith_slash_cons t
    · rw [if_neg hs] at h
      exact absurd h (by simp)

/-- C10 witness: the opaque location `"foo"` is accepted and coerced to the
absolute cleaned scan directory `"/foo"`. -/
theorem accepted_root_is_absolute_cleaned_witness :
    NewTestImporter (str "test") fooConfig statAlwaysOk
      = Except.ok ⟨str "/foo"⟩ ∧
    goStartsWith (TestImporter.mk (str "/foo")).scanDir (str "/") = true :=
  ⟨rfl,
   (accepted_root_is_absolute_cleaned (str "test") fooConfig statAlwaysOk
     ⟨str "/foo"⟩ rfl).2⟩
